import Mathlib

/-!
Shallow embedding of `Bonferroni.py` (repository Bigliassi/AnovaBonferroni2x2).

The script processes a table whose first three columns are the subject ID,
the between-subject group label and the within-subject condition label, and
whose remaining columns are dependent variables.  Pandas cells may be missing
(NaN), so every cell is modelled as an `Option`.  The numerical statistics
(pingouin's `mixed_anova`, `sphericity`, `pairwise_tests`) are external
library calls and are modelled as oracle parameters; everything the script
itself computes (gating, normalization, dropna, the comparison matrices, the
means table, the per-variable loop) is embedded directly from the source.
Rational numbers stand in for the floating point p-values; the only numeric
operations the script performs on them are comparison against the literal
0.001 and averaging, for which `ℚ` is a faithful model.
-/

/-- A row of the input table: ID, Group, Condition, and the dependent-variable
columns (modelled as an association list from column name to optional value).
Any cell may be NaN, hence `Option` everywhere. -/
structure Row where
  id : Option String
  group : Option String
  cond : Option String
  dvs : List (String × Option ℚ)
deriving DecidableEq, Repr

abbrev Dataset := List Row

/-- First-match association-list lookup (Python dict access; the builders below
never produce the same key twice with different values, so first match and
Python's last-write-wins agree on everything the script observes). -/
def lookupKey {α β : Type} [DecidableEq α] (k : α) : List (α × β) → Option β
  | [] => none
  | (a, b) :: t => if k = a then some b else lookupKey k t

/-- Value of dependent-variable column `dv` in a row (`none` = NaN or absent column). -/
def Row.getDv (r : Row) (dv : String) : Option ℚ :=
  (lookupKey dv r.dvs).getD none

/-- One row of the pingouin `pairwise_tests` result, restricted to the columns
the script reads: 'Contrast', 'A', 'B', 'p-unc', 'p-corr'. -/
structure PosthocRow where
  contrast : String
  A : String
  B : String
  punc : ℚ
  pcorr : ℚ
deriving DecidableEq, Repr

/-- Entry of a comparison matrix: a p-value, or the sentinel string 'ns'. -/
inductive PVal where
  | p (v : ℚ)
  | ns
deriving DecidableEq, Repr

/-- The row filter of `compare_conditions_within_groups` (lines 42-44) and
`compare_groups_within_conditions` (lines 57-59): contrast matches and
(A, B) equals the two levels in either order. -/
def matchesPair (contrast lvl1 lvl2 : String) (r : PosthocRow) : Bool :=
  r.contrast == contrast &&
    ((r.A == lvl1 && r.B == lvl2) || (r.A == lvl2 && r.B == lvl1))

/-- `posthoc_results.loc[filter, 'p-unc']` followed by `.values[0] if len > 0`:
the 'p-unc' of the first row matching the pair, if any (source lines 41-46). -/
def lookupPair (rows : List PosthocRow) (contrast lvl1 lvl2 : String) : Option ℚ :=
  ((rows.filter (matchesPair contrast lvl1 lvl2)).head?).map PosthocRow.punc

/-- The dict value stored for one ordered pair: the looked-up p-value, or the
string sentinel 'ns' when no row matches (source line 46). -/
def pairEntry (rows : List PosthocRow) (contrast : String) (pr : String × String) : PVal :=
  match lookupPair rows contrast pr.1 pr.2 with
  | some v => PVal.p v
  | none => PVal.ns

/-- `compare_conditions_within_groups(posthoc_results, group, conditions)`
(source lines 36-48): for every ordered pair of distinct conditions, the
first matching 'Condition'-contrast row's p-unc, else 'ns'.  The Python dict
key `f'{c1} vs {c2}'` is modelled as the ordered pair itself.  Note the
`group` parameter is bound but never used in the body, exactly as in the
source. -/
def compare_conditions_within_groups (posthoc_results : List PosthocRow)
    (group : String) (conditions : List String) : List ((String × String) × PVal) :=
  (conditions.product conditions).filterMap (fun pr =>
    if pr.1 ≠ pr.2 then some (pr, pairEntry posthoc_results "Condition" pr) else none)

/-- `compare_groups_within_conditions(posthoc_results, condition, groups)`
(source lines 51-63): same construction with contrast 'Group'; the
`condition` parameter is bound but never used, exactly as in the source. -/
def compare_groups_within_conditions (posthoc_results : List PosthocRow)
    (condition : String) (groups : List String) : List ((String × String) × PVal) :=
  (groups.product groups).filterMap (fun pr =>
    if pr.1 ≠ pr.2 then some (pr, pairEntry posthoc_results "Group" pr) else none)

/-- `compare_interaction(posthoc_results, means)` (source lines 66-71): filter
the rows whose contrast is 'Condition * Group', projecting (A, B, p-unc,
p-corr); the means argument is passed through unchanged. -/
def compare_interaction {μ : Type} (posthoc_results : List PosthocRow) (means : μ) :
    List (String × String × ℚ × ℚ) × μ :=
  ((posthoc_results.filter (fun r => r.contrast == "Condition * Group")).map
    (fun r => (r.A, r.B, r.punc, r.pcorr)), means)

/-- Characters stripped by Python's `str.strip()` (the input labels only ever
carry these whitespace characters). -/
def isSpaceChar (c : Char) : Bool := c = ' ' || c = '\t' || c = '\n' || c = '\r'

/-- Strip leading and trailing whitespace from a character list. -/
def trimChars (l : List Char) : List Char :=
  ((l.dropWhile isSpaceChar).reverse.dropWhile isSpaceChar).reverse

/-- `s.str.strip().str.lower()` applied to one label (source lines 82-83):
surrounding whitespace removed, then case-folded. -/
def normLabel (s : String) : String := String.mk ((trimChars s.data).map Char.toLower)

/-- Lines 82-83 applied to one row: both the Group and the Condition cells are
normalized (a NaN cell stays NaN, as in pandas `.str` accessors). -/
def Row.normalize (r : Row) : Row :=
  { r with group := r.group.map normLabel, cond := r.cond.map normLabel }

/-- The effect of `data[group_col] = data[group_col].str.strip().str.lower()`
and the analogous condition assignment on the whole table. -/
def normalizeData (data : Dataset) : Dataset := data.map Row.normalize

/-- Pandas `unique()`: the distinct values in first-occurrence order.  In the
script it is applied to the Group / Condition columns of a frame whose labels
are all present (see the call sites), so NaN entries are simply skipped by
the callers below via `filterMap`. -/
def uniqueList (l : List String) : List String :=
  l.foldl (fun acc a => if a ∈ acc then acc else acc ++ [a]) []

/-- The (group, condition) key of a row, when both labels are present; pandas
`groupby([group_col, condition_col])` silently drops rows whose key contains
NaN. -/
def Row.gcKey (r : Row) : Option (String × String) :=
  r.group.bind (fun g => r.cond.map (fun c => (g, c)))

/-- Group labels appearing in the groupby keys (row index of the unstacked
means frame). -/
def seenGroups (data : Dataset) : List String :=
  uniqueList ((data.filterMap Row.gcKey).map Prod.fst)

/-- Condition labels appearing in the groupby keys (column index of the
unstacked means frame). -/
def seenConds (data : Dataset) : List String :=
  uniqueList ((data.filterMap Row.gcKey).map Prod.snd)

/-- The non-missing dependent-variable values of the rows keyed (g, c): the
values pandas averages for that cell. -/
def qualifyingVals (data : Dataset) (dv g c : String) : List ℚ :=
  data.filterMap (fun r =>
    if r.group = some g ∧ r.cond = some c then r.getDv dv else none)

/-- One cell of the unstacked means frame: the mean over the non-missing
values when there is at least one, `none` (pandas NaN) otherwise. -/
def cellMean (data : Dataset) (dv g c : String) : Option ℚ :=
  if qualifyingVals data dv g c = [] then none
  else some ((qualifyingVals data dv g c).sum / ((qualifyingVals data dv g c).length : ℚ))

/-- `calculate_means(data, group_col, condition_col, dv_col)` (source lines
30-33): `data.groupby([group, condition])[dv].mean().unstack()`.  The
unstacked frame is the full rectangle of seen groups × seen conditions; cells
without data hold NaN (`none`). -/
def calculate_means (data : Dataset) (dv_col : String) :
    List ((String × String) × Option ℚ) :=
  ((seenGroups data).product (seenConds data)).map
    (fun gc => (gc, cellMean data dv_col gc.1 gc.2))

/-- One row of the pingouin `mixed_anova` table restricted to the columns the
script reads: 'Source' and 'p-unc' (the real table also carries F, degrees of
freedom and effect sizes, which the script never inspects). -/
structure AnovaRow where
  source : String
  punc : ℚ
deriving DecidableEq, Repr

/-- Result of pingouin's `sphericity` (Mauchly's test): the boolean verdict,
the W statistic and the p-value.  The script computes it and returns it but
never reads its fields. -/
structure SphericityResult where
  spher : Bool
  W : ℚ
  pval : ℚ
deriving DecidableEq, Repr

/-- The external statistics routines (pingouin).  Their numerics are out of
scope; each may raise, modelled as `Except`.  Each receives the data frame
the script passes it and the dependent-variable column name. -/
structure Oracles where
  mixed_anova : Dataset → String → Except String (List AnovaRow)
  sphericity : Dataset → String → Except String SphericityResult
  pairwise : Dataset → String → Except String (List PosthocRow)

/-- `check_sphericity(data, id_column, within, dv)` (source lines 17-19):
a direct call into the statistics library. -/
def check_sphericity (o : Oracles) (data : Dataset) (dv : String) :
    Except String SphericityResult :=
  o.sphericity data dv

/-- `aov_data = data[[id_column, group_col, condition_col, dv_col]].dropna()`
(source line 24): keep exactly the rows in which all four selected columns
are present; missing cells in other dependent-variable columns are invisible
to this call because of the four-column projection. -/
def aov_input (data : Dataset) (dv_col : String) : Dataset :=
  data.filter (fun r =>
    r.id.isSome && r.group.isSome && r.cond.isSome && (r.getDv dv_col).isSome)

/-- `run_mixed_anova(data, id_column, group_col, condition_col, dv_col)`
(source lines 22-27): listwise deletion over the four projected columns, then
the mixed-model fit and the sphericity check on the reduced frame.  A raise
in either library call propagates. -/
def run_mixed_anova (o : Oracles) (data : Dataset) (dv_col : String) :
    Except String (List AnovaRow × SphericityResult) :=
  match o.mixed_anova (aov_input data dv_col) dv_col with
  | Except.error e => Except.error e
  | Except.ok aov =>
    match check_sphericity o (aov_input data dv_col) dv_col with
    | Except.error e => Except.error e
    | Except.ok sph => Except.ok (aov, sph)

/-- The five artifacts returned on the significant branch of
`run_posthoc_tests_if_interaction_significant` (source line 110). -/
structure PosthocBundle where
  posthoc_results : List PosthocRow
  condition_comparisons : List (String × List ((String × String) × PVal))
  group_comparisons : List (String × List ((String × String) × PVal))
  interaction_comparisons : List (String × String × ℚ × ℚ)
  means : List ((String × String) × Option ℚ)
deriving DecidableEq, Repr

/-- `run_posthoc_tests_if_interaction_significant(data, id_column, group_col,
condition_col, dv_col, interaction_p_value)` (source lines 74-113).  The
`(None, None, None, None, None)` return of the insignificant branch is
modelled as `Except.ok none`.  The second component of the result is the
caller's data frame after the call: the label normalization on lines 82-83
assigns through `data[...] = ...` into the very frame the caller passed (no
copy is taken), so on the significant branch the caller's frame comes back
normalized; a raise inside `pairwise_tests` happens after that assignment. -/
def run_posthoc_tests_if_interaction_significant (o : Oracles) (data : Dataset)
    (dv_col : String) (interaction_p_value : ℚ) :
    Except String (Option PosthocBundle) × Dataset :=
  if interaction_p_value < mkRat 1 1000 then
    let data1 := normalizeData data
    let posthoc_data := data1.filter (fun r => (r.getDv dv_col).isSome)
    match o.pairwise posthoc_data dv_col with
    | Except.error e => (Except.error e, data1)
    | Except.ok posthoc_results =>
      let means := calculate_means posthoc_data dv_col
      let groups := uniqueList (posthoc_data.filterMap Row.group)
      let conditions := uniqueList (posthoc_data.filterMap Row.cond)
      let condition_comparisons := groups.map (fun g =>
        (g, compare_conditions_within_groups posthoc_results g conditions))
      let group_comparisons := conditions.map (fun c =>
        (c, compare_groups_within_conditions posthoc_results c groups))
      let ic := compare_interaction posthoc_results means
      (Except.ok (some { posthoc_results := posthoc_results,
                         condition_comparisons := condition_comparisons,
                         group_comparisons := group_comparisons,
                         interaction_comparisons := ic.1,
                         means := ic.2 }), data1)
  else
    (Except.ok none, data)

/-- The per-variable tables handed to the Excel writer. -/
inductive SheetContent where
  | anova (t : List AnovaRow)
  | posthoc (t : List PosthocRow)
  | condComp (t : List (String × List ((String × String) × PVal)))
  | groupComp (t : List (String × List ((String × String) × PVal)))
  | interComp (t : List (String × String × ℚ × ℚ))
  | meansT (t : List ((String × String) × Option ℚ))
deriving DecidableEq, Repr

/-- One sheet written to the output workbook: its name and its table. -/
structure Sheet where
  name : String
  content : SheetContent
deriving DecidableEq, Repr

/-- One iteration of the loop on source lines 117-143 for one dependent
variable: the sheets it writes, the data frame it leaves behind (post-hoc may
normalize it in place), and the exception it raises if a statistics call
fails (`some e`; the loop body contains no exception handler). -/
def processVariable (o : Oracles) (data : Dataset) (dv_col : String) :
    List Sheet × Dataset × Option String :=
  match run_mixed_anova o data dv_col with
  | Except.error e => ([], data, some e)
  | Except.ok (mixed_anova, _sphericity) =>
    let anovaSheet : Sheet := ⟨dv_col ++ "_Mixed_ANOVA", SheetContent.anova mixed_anova⟩
    match mixed_anova.find? (fun row => row.source == "Interaction") with
    | none => ([anovaSheet], data, none)
    | some irow =>
      match run_posthoc_tests_if_interaction_significant o data dv_col irow.punc with
      | (Except.error e, data1) => ([anovaSheet], data1, some e)
      | (Except.ok none, data1) => ([anovaSheet], data1, none)
      | (Except.ok (some b), data1) =>
        ([anovaSheet,
          ⟨dv_col ++ "_Posthoc_Comparisons", SheetContent.posthoc b.posthoc_results⟩,
          ⟨dv_col ++ "_Condition_Comparisons", SheetContent.condComp b.condition_comparisons⟩,
          ⟨dv_col ++ "_Group_Comparisons", SheetContent.groupComp b.group_comparisons⟩,
          ⟨dv_col ++ "_Interaction_Comparisons", SheetContent.interComp b.interaction_comparisons⟩,
          ⟨dv_col ++ "_Means", SheetContent.meansT b.means⟩], data1, none)

/-- The whole batch (source lines 116-143): the dependent-variable columns in
order, threading the shared data frame.  An uncaught exception stops the loop
(`some e`); sheets already written stay written (pandas' ExcelWriter saves on
context exit). -/
def mainLoop (o : Oracles) : Dataset → List String → List Sheet × Option String
  | _, [] => ([], none)
  | data, dv_col :: rest =>
    match processVariable o data dv_col with
    | (sheets, _, some e) => (sheets, some e)
    | (sheets, data1, none) =>
      let r := mainLoop o data1 rest
      (sheets ++ r.1, r.2)

/-! ### Helper lemmas -/

/-- Lookup in an association list built from keys of `l` filtered by `Q`:
the first (hence every) entry for `k` carries `g k`. -/
theorem lookupKey_filterMap_keyed {α β : Type} [DecidableEq α]
    (l : List α) (Q : α → Prop) [DecidablePred Q] (g : α → β) (k : α) :
    lookupKey k (l.filterMap (fun a => if Q a then some (a, g a) else none)) =
      if k ∈ l ∧ Q k then some (g k) else none := by
  induction l with
  | nil => simp [lookupKey]
  | cons a t ih =>
    rw [List.filterMap_cons]
    by_cases hQ : Q a
    · rw [if_pos hQ]
      by_cases hk : k = a
      · subst hk
        simp [lookupKey, hQ]
      · simp only [lookupKey, if_neg hk, ih, List.mem_cons]
        by_cases hm : k ∈ t ∧ Q k
        · rw [if_pos hm, if_pos ⟨Or.inr hm.1, hm.2⟩]
        · rw [if_neg hm, if_neg]
          intro hcon
          rcases hcon.1 with h1 | h1
          · exact hk h1
          · exact hm ⟨h1, hcon.2⟩
    · rw [if_neg hQ, ih]
      by_cases hk : k = a
      · subst hk
        rw [if_neg (fun hcon => hQ hcon.2), if_neg (fun hcon => hQ hcon.2)]
      · by_cases hm : k ∈ t ∧ Q k
        · rw [if_pos hm, if_pos ⟨List.mem_cons_of_mem _ hm.1, hm.2⟩]
        · rw [if_neg hm, if_neg]
          intro hcon
          rcases List.mem_cons.mp hcon.1 with h1 | h1
          · exact hk h1
          · exact hm ⟨h1, hcon.2⟩

/-- Lookup in an association list mapping every element of `l` to `g` of it. -/
theorem lookupKey_map_keyed {α β : Type} [DecidableEq α]
    (l : List α) (g : α → β) (k : α) :
    lookupKey k (l.map (fun a => (a, g a))) = if k ∈ l then some (g k) else none := by
  induction l with
  | nil => simp [lookupKey]
  | cons a t ih =>
    by_cases hk : k = a
    · subst hk
      simp [lookupKey]
    · simp [lookupKey, hk, ih, List.mem_cons]

/-- The pair filter of the aggregator is order-agnostic in the two levels. -/
theorem matchesPair_symm (contrast lvl1 lvl2 : String) (r : PosthocRow) :
    matchesPair contrast lvl1 lvl2 r = matchesPair contrast lvl2 lvl1 r := by
  unfold matchesPair
  rw [Bool.or_comm]

/-- Symmetric lookup: querying a pair in either order inspects the same rows
and returns the same first match. -/
theorem lookupPair_symm (rows : List PosthocRow) (contrast lvl1 lvl2 : String) :
    lookupPair rows contrast lvl1 lvl2 = lookupPair rows contrast lvl2 lvl1 := by
  unfold lookupPair
  rw [List.filter_congr (fun r _ => matchesPair_symm contrast lvl1 lvl2 r)]

/-- When some row matches the pair and every matching row carries `p`, the
lookup resolves to `p`. -/
theorem lookupPair_eq_some_of (rows : List PosthocRow) (contrast lvl1 lvl2 : String)
    (p : ℚ)
    (h1 : ∃ r ∈ rows, matchesPair contrast lvl1 lvl2 r = true)
    (h2 : ∀ r ∈ rows, matchesPair contrast lvl1 lvl2 r = true → r.punc = p) :
    lookupPair rows contrast lvl1 lvl2 = some p := by
  unfold lookupPair
  obtain ⟨r0, hr0, hm⟩ := h1
  cases hh : (rows.filter (matchesPair contrast lvl1 lvl2)).head? with
  | none =>
    have hnil := List.head?_eq_none_iff.mp hh
    have : r0 ∈ rows.filter (matchesPair contrast lvl1 lvl2) :=
      List.mem_filter.mpr ⟨hr0, hm⟩
    rw [hnil] at this
    exact absurd this (List.not_mem_nil r0)
  | some r1 =>
    have hr1 : r1 ∈ rows.filter (matchesPair contrast lvl1 lvl2) :=
      List.mem_of_mem_head? (by rw [hh]; exact rfl)
    have hr1' := List.mem_filter.mp hr1
    simp only [Option.map, hh]
    rw [h2 r1 hr1'.1 hr1'.2]

/-- When no row matches the pair, the lookup misses. -/
theorem lookupPair_eq_none_of (rows : List PosthocRow) (contrast lvl1 lvl2 : String)
    (h : ∀ r ∈ rows, matchesPair contrast lvl1 lvl2 r = false) :
    lookupPair rows contrast lvl1 lvl2 = none := by
  unfold lookupPair
  have hnil : rows.filter (matchesPair contrast lvl1 lvl2) = [] :=
    List.filter_eq_nil_iff.mpr (fun r hr => by rw [h r hr]; exact Bool.false_ne_true)
  rw [hnil]
  rfl

/-- Characterization of the condition-pair matrix as a finite map: an entry
exists for every ordered pair of distinct listed conditions and holds the
looked-up value. -/
theorem lookupKey_compare_conditions (rows : List PosthocRow) (gparam : String)
    (conditions : List String) (k : String × String) :
    lookupKey k (compare_conditions_within_groups rows gparam conditions) =
      if k ∈ conditions.product conditions ∧ k.1 ≠ k.2
      then some (pairEntry rows "Condition" k) else none := by
  unfold compare_conditions_within_groups
  rw [lookupKey_filterMap_keyed (conditions.product conditions)
    (fun pr => pr.1 ≠ pr.2) (fun pr => pairEntry rows "Condition" pr) k]
  by_cases hk : k ∈ conditions.product conditions ∧ k.1 ≠ k.2
  · rw [if_pos hk, if_pos hk]
  · rw [if_neg hk, if_neg hk]

/-- Characterization of the group-pair matrix as a finite map. -/
theorem lookupKey_compare_groups (rows : List PosthocRow) (cparam : String)
    (groups : List String) (k : String × String) :
    lookupKey k (compare_groups_within_conditions rows cparam groups) =
      if k ∈ groups.product groups ∧ k.1 ≠ k.2
      then some (pairEntry rows "Group" k) else none := by
  unfold compare_groups_within_conditions
  rw [lookupKey_filterMap_keyed (groups.product groups)
    (fun pr => pr.1 ≠ pr.2) (fun pr => pairEntry rows "Group" pr) k]
  by_cases hk : k ∈ groups.product groups ∧ k.1 ≠ k.2
  · rw [if_pos hk, if_pos hk]
  · rw [if_neg hk, if_neg hk]

/-- Unfolding equation of the batch loop on a non-empty variable list. -/
theorem mainLoop_cons (o : Oracles) (data : Dataset) (dv_col : String) (rest : List String) :
    mainLoop o data (dv_col :: rest) =
      match processVariable o data dv_col with
      | (sheets, _, some e) => (sheets, some e)
      | (sheets, data1, none) =>
        (sheets ++ (mainLoop o data1 rest).1, (mainLoop o data1 rest).2) :=
  rfl

/-! ### Claim theorems -/

/-- Claim C1: for every interaction p-value p, the post-hoc computation is
performed if and only if p < 0.001, with strict inequality; the skip branch
(the all-`None` return, modelled `Except.ok none`) is taken exactly when
p is not below 0.001, so at p = 0.001 post-hoc is skipped. -/
theorem posthoc_gate_strict (o : Oracles) (data : Dataset) (dv_col : String) (p : ℚ) :
    (run_posthoc_tests_if_interaction_significant o data dv_col p).1 = Except.ok none ↔
      ¬ p < mkRat 1 1000 := by
  unfold run_posthoc_tests_if_interaction_significant
  by_cases hp : p < mkRat 1 1000
  · rw [if_pos hp]
    cases hpw : o.pairwise ((normalizeData data).filter fun r => (r.getDv dv_col).isSome) dv_col with
    | error e => simp [hpw, hp]
    | ok rows => simp [hpw, hp]
  · rw [if_neg hp]
    simp [hp]

/-- Claim C2: when the flat post-hoc table has a within-factor ('Condition')
row for the unordered pair {x, y} carrying uncorrected p-value p (all matching
rows agreeing on p), the condition-pair matrix maps both ordered keys (x, y)
and (y, x) to that same p: the lookup is order-agnostic in A/B. -/
theorem condition_matrix_symmetric_pair_lookup (rows : List PosthocRow) (gparam : String)
    (conditions : List String) (x y : String) (p : ℚ)
    (hx : x ∈ conditions) (hy : y ∈ conditions) (hxy : x ≠ y)
    (h1 : ∃ r ∈ rows, matchesPair "Condition" x y r = true)
    (h2 : ∀ r ∈ rows, matchesPair "Condition" x y r = true → r.punc = p) :
    lookupKey (x, y) (compare_conditions_within_groups rows gparam conditions) =
      some (PVal.p p) ∧
    lookupKey (y, x) (compare_conditions_within_groups rows gparam conditions) =
      some (PVal.p p) := by
  have hfwd : lookupPair rows "Condition" x y = some p :=
    lookupPair_eq_some_of rows "Condition" x y p h1 h2
  have hbwd : lookupPair rows "Condition" y x = some p := by
    rw [lookupPair_symm]
    exact hfwd
  constructor
  · rw [lookupKey_compare_conditions, if_pos ⟨List.pair_mem_product.mpr ⟨hx, hy⟩, hxy⟩]
    simp [pairEntry, hfwd]
  · rw [lookupKey_compare_conditions,
      if_pos ⟨List.pair_mem_product.mpr ⟨hy, hx⟩, Ne.symm hxy⟩]
    simp [pairEntry, hbwd]

/-- Concrete instance of the symmetric lookup: one row (A = "b", B = "a",
p-unc = 0.02) resolves both queries ("a","b") and ("b","a") to 0.02. -/
theorem condition_matrix_symmetric_pair_lookup_witness :
    lookupKey ("a", "b")
        (compare_conditions_within_groups
          [⟨"Condition", "b", "a", mkRat 1 50, mkRat 1 25⟩] "g" ["a", "b"]) =
      some (PVal.p (mkRat 1 50)) ∧
    lookupKey ("b", "a")
        (compare_conditions_within_groups
          [⟨"Condition", "b", "a", mkRat 1 50, mkRat 1 25⟩] "g" ["a", "b"]) =
      some (PVal.p (mkRat 1 50)) :=
  condition_matrix_symmetric_pair_lookup
    [⟨"Condition", "b", "a", mkRat 1 50, mkRat 1 25⟩] "g" ["a", "b"] "a" "b" (mkRat 1 50)
    (by decide) (by decide) (by decide)
    ⟨⟨"Condition", "b", "a", mkRat 1 50, mkRat 1 25⟩, by decide, by decide⟩
    (by decide)

/-- Claim C4: when no row of the matching contrast kind exists for a pair of
distinct listed levels in either (A, B) order, both aggregator matrices map
that ordered pair to exactly the sentinel 'ns' (a present entry, not an
error: the lookup is total). -/
theorem missing_pair_resolves_ns (rows : List PosthocRow) (gparam cparam : String)
    (conditions groups : List String) (x y u v : String)
    (hx : x ∈ conditions) (hy : y ∈ conditions) (hxy : x ≠ y)
    (hu : u ∈ groups) (hv : v ∈ groups) (huv : u ≠ v)
    (hC : ∀ r ∈ rows, matchesPair "Condition" x y r = false)
    (hG : ∀ r ∈ rows, matchesPair "Group" u v r = false) :
    lookupKey (x, y) (compare_conditions_within_groups rows gparam conditions) =
      some PVal.ns ∧
    lookupKey (u, v) (compare_groups_within_conditions rows cparam groups) =
      some PVal.ns := by
  constructor
  · rw [lookupKey_compare_conditions, if_pos ⟨List.pair_mem_product.mpr ⟨hx, hy⟩, hxy⟩]
    simp [pairEntry, lookupPair_eq_none_of rows "Condition" x y hC]
  · rw [lookupKey_compare_groups, if_pos ⟨List.pair_mem_product.mpr ⟨hu, hv⟩, huv⟩]
    simp [pairEntry, lookupPair_eq_none_of rows "Group" u v hG]

/-- Concrete instance of the 'ns' default: a table holding only an interaction
row gives 'ns' for a condition pair and for a group pair. -/
theorem missing_pair_resolves_ns_witness :
    lookupKey ("a", "c")
        (compare_conditions_within_groups
          [⟨"Condition * Group", "a", "c", mkRat 1 50, mkRat 1 25⟩] "g" ["a", "c"]) =
      some PVal.ns ∧
    lookupKey ("g1", "g2")
        (compare_groups_within_conditions
          [⟨"Condition * Group", "a", "c", mkRat 1 50, mkRat 1 25⟩] "c" ["g1", "g2"]) =
      some PVal.ns :=
  missing_pair_resolves_ns
    [⟨"Condition * Group", "a", "c", mkRat 1 50, mkRat 1 25⟩] "g" "c"
    ["a", "c"] ["g1", "g2"] "a" "c" "g1" "g2"
    (by decide) (by decide) (by decide) (by decide) (by decide) (by decide)
    (by decide) (by decide)

/-- Claim C10: the condition-pair builder never reads its fixed-group argument
and the group-pair builder never reads its fixed-condition argument, so the
per-group (per-condition) matrices of one run are all identical. -/
theorem fixed_level_argument_unused (rows : List PosthocRow)
    (conditions groups : List String) (g1 g2 c1 c2 : String) :
    compare_conditions_within_groups rows g1 conditions =
      compare_conditions_within_groups rows g2 conditions ∧
    compare_groups_within_conditions rows c1 groups =
      compare_groups_within_conditions rows c2 groups :=
  ⟨rfl, rfl⟩

/-- Statistics oracles that always succeed, used for concrete evaluations. -/
def oracleStub : Oracles :=
  { mixed_anova := fun _ _ => Except.ok [⟨"Interaction", 0⟩]
    sphericity := fun _ _ => Except.ok ⟨true, 1, mkRat 1 2⟩
    pairwise := fun _ _ => Except.ok [] }

/-- A one-row dataset whose labels carry surrounding whitespace and upper
case, as the normalization step targets. -/
def dataMixedCase : Dataset :=
  [⟨some "1", some " A ", some "X", [("v", some 1)]⟩]

/-- Claim C3 counterexample: running the post-hoc step on a dataset with an
interaction p-value that passes the gate does NOT leave the caller's dataset
unchanged — the trim/lowercase normalization is assigned into the caller's
frame itself (source lines 82-83 write through `data[...] = ...` with no
copy), so the labels " A " / "X" come back as "a" / "x". -/
theorem posthoc_mutates_caller_dataset :
    (run_posthoc_tests_if_interaction_significant oracleStub dataMixedCase "v" 0).2 ≠
      dataMixedCase ∧
    (run_posthoc_tests_if_interaction_significant oracleStub dataMixedCase "v" 0).2 =
      [⟨some "1", some "a", some "x", [("v", some 1)]⟩] :=
  ⟨by decide, by decide⟩

/-- Claim C3 amended: the normalization is applied to the caller's dataset in
place, not to a copy.  A run whose interaction p-value passes the gate leaves
the caller's dataset with trimmed and lower-cased group and condition labels
(so later variable runs see normalized labels); a run that skips post-hoc
leaves the dataset unchanged. -/
theorem posthoc_normalizes_in_place (o : Oracles) (data : Dataset) (dv_col : String) (p : ℚ) :
    (run_posthoc_tests_if_interaction_significant o data dv_col p).2 =
      if p < mkRat 1 1000 then normalizeData data else data := by
  unfold run_posthoc_tests_if_interaction_significant
  by_cases hp : p < mkRat 1 1000
  · rw [if_pos hp, if_pos hp]
    cases hpw : o.pairwise ((normalizeData data).filter fun r => (r.getDv dv_col).isSome) dv_col with
    | error e => simp [hpw]
    | ok rows => simp [hpw]
  · rw [if_neg hp, if_neg hp]

/-- Claim C5: when the mixed-ANOVA fit succeeds and its interaction row has a
p-value that is not below 0.001, the variable's loop iteration writes exactly
the ANOVA sheet — none of the five post-hoc artifacts is produced — and it
neither raises nor touches the dataset. -/
theorem skip_posthoc_still_writes_anova (o : Oracles) (data : Dataset) (dv_col : String)
    (aov : List AnovaRow) (sph : SphericityResult) (irow : AnovaRow)
    (h1 : run_mixed_anova o data dv_col = Except.ok (aov, sph))
    (h2 : aov.find? (fun row => row.source == "Interaction") = some irow)
    (h3 : ¬ irow.punc < mkRat 1 1000) :
    processVariable o data dv_col =
      ([⟨dv_col ++ "_Mixed_ANOVA", SheetContent.anova aov⟩], data, none) := by
  have hrp : run_posthoc_tests_if_interaction_significant o data dv_col irow.punc =
      (Except.ok none, data) := by
    unfold run_posthoc_tests_if_interaction_significant
    rw [if_neg h3]
  unfold processVariable
  rw [h1]
  dsimp only
  rw [h2]
  dsimp only
  rw [hrp]

/-- Concrete instance for C5: an interaction p-value of 0.02 yields only the
ANOVA sheet. -/
theorem skip_posthoc_still_writes_anova_witness :
    processVariable
      { mixed_anova := fun _ _ => Except.ok [⟨"Interaction", mkRat 1 50⟩]
        sphericity := fun _ _ => Except.ok ⟨true, 1, mkRat 1 2⟩
        pairwise := fun _ _ => Except.ok [] }
      [⟨some "1", some "g", some "c", [("v", some 1)]⟩] "v" =
    ([⟨"v_Mixed_ANOVA", SheetContent.anova [⟨"Interaction", mkRat 1 50⟩]⟩],
      [⟨some "1", some "g", some "c", [("v", some 1)]⟩], none) :=
  skip_posthoc_still_writes_anova
    { mixed_anova := fun _ _ => Except.ok [⟨"Interaction", mkRat 1 50⟩]
      sphericity := fun _ _ => Except.ok ⟨true, 1, mkRat 1 2⟩
      pairwise := fun _ _ => Except.ok [] }
    [⟨some "1", some "g", some "c", [("v", some 1)]⟩] "v"
    [⟨"Interaction", mkRat 1 50⟩] ⟨true, 1, mkRat 1 2⟩ ⟨"Interaction", mkRat 1 50⟩
    rfl (by decide) (by decide)

/-- Claim C6: when the ANOVA table contains no row whose Source is
'Interaction', the loop iteration is a normal non-fatal state: it writes the
ANOVA sheet, skips post-hoc entirely (no post-hoc sheet, no error, dataset
untouched), and the batch proceeds to the next dependent variable. -/
theorem missing_interaction_row_skips_and_continues (o : Oracles) (data : Dataset)
    (dv_col : String) (aov : List AnovaRow) (sph : SphericityResult) (rest : List String)
    (h1 : run_mixed_anova o data dv_col = Except.ok (aov, sph))
    (h2 : aov.find? (fun row => row.source == "Interaction") = none) :
    processVariable o data dv_col =
      ([⟨dv_col ++ "_Mixed_ANOVA", SheetContent.anova aov⟩], data, none) ∧
    mainLoop o data (dv_col :: rest) =
      (⟨dv_col ++ "_Mixed_ANOVA", SheetContent.anova aov⟩ :: (mainLoop o data rest).1,
        (mainLoop o data rest).2) := by
  have hpv : processVariable o data dv_col =
      ([⟨dv_col ++ "_Mixed_ANOVA", SheetContent.anova aov⟩], data, none) := by
    unfold processVariable
    rw [h1]
    dsimp only
    rw [h2]
  refine ⟨hpv, ?_⟩
  rw [mainLoop_cons, hpv]
  dsimp only
  rw [List.singleton_append]

/-- Concrete instance for C6: a main-effects-only ANOVA table writes its sheet
and the batch moves on to the next column. -/
theorem missing_interaction_row_skips_and_continues_witness :
    processVariable
      { mixed_anova := fun _ _ => Except.ok [⟨"Condition", mkRat 1 50⟩]
        sphericity := fun _ _ => Except.ok ⟨true, 1, mkRat 1 2⟩
        pairwise := fun _ _ => Except.ok [] }
      [⟨some "1", some "g", some "c", [("v", some 1)]⟩] "v" =
      ([⟨"v_Mixed_ANOVA", SheetContent.anova [⟨"Condition", mkRat 1 50⟩]⟩],
        [⟨some "1", some "g", some "c", [("v", some 1)]⟩], none) ∧
    mainLoop
      { mixed_anova := fun _ _ => Except.ok [⟨"Condition", mkRat 1 50⟩]
        sphericity := fun _ _ => Except.ok ⟨true, 1, mkRat 1 2⟩
        pairwise := fun _ _ => Except.ok [] }
      [⟨some "1", some "g", some "c", [("v", some 1)]⟩] ["v", "w"] =
      (⟨"v_Mixed_ANOVA", SheetContent.anova [⟨"Condition", mkRat 1 50⟩]⟩ ::
        (mainLoop
          { mixed_anova := fun _ _ => Except.ok [⟨"Condition", mkRat 1 50⟩]
            sphericity := fun _ _ => Except.ok ⟨true, 1, mkRat 1 2⟩
            pairwise := fun _ _ => Except.ok [] }
          [⟨some "1", some "g", some "c", [("v", some 1)]⟩] ["w"]).1,
        (mainLoop
          { mixed_anova := fun _ _ => Except.ok [⟨"Condition", mkRat 1 50⟩]
            sphericity := fun _ _ => Except.ok ⟨true, 1, mkRat 1 2⟩
            pairwise := fun _ _ => Except.ok [] }
          [⟨some "1", some "g", some "c", [("v", some 1)]⟩] ["w"]).2) :=
  missing_interaction_row_skips_and_continues
    { mixed_anova := fun _ _ => Except.ok [⟨"Condition", mkRat 1 50⟩]
      sphericity := fun _ _ => Except.ok ⟨true, 1, mkRat 1 2⟩
      pairwise := fun _ _ => Except.ok [] }
    [⟨some "1", some "g", some "c", [("v", some 1)]⟩] "v"
    [⟨"Condition", mkRat 1 50⟩] ⟨true, 1, mkRat 1 2⟩ ["w"]
    rfl (by decide)

/-- Oracles for which the statistics routine fails on column "v1" only (e.g.
a factor level with too few subjects for that variable) and succeeds on every
other column. -/
def oracleFailV1 : Oracles :=
  { mixed_anova := fun _ dv =>
      if dv = "v1" then Except.error "insufficient data"
      else Except.ok [⟨"Condition", mkRat 1 10⟩, ⟨"Interaction", mkRat 1 50⟩]
    sphericity := fun _ _ => Except.ok ⟨true, 1, mkRat 1 2⟩
    pairwise := fun _ _ => Except.ok [] }

/-- A two-variable input table on which `oracleFailV1` fails for "v1" and
succeeds for "v2". -/
def dataTwoVars : Dataset :=
  [⟨some "1", some "g", some "c", [("v1", some 1), ("v2", some 2)]⟩]

/-- Claim C7 counterexample: a statistics failure on the first variable is
NOT scoped to that variable — the loop body has no exception handler, so the
batch stops with the error and produces nothing at all for "v2", even though
processing ["v2"] alone would succeed and write its ANOVA sheet. -/
theorem stats_failure_aborts_batch :
    mainLoop oracleFailV1 dataTwoVars ["v1", "v2"] = ([], some "insufficient data") ∧
    mainLoop oracleFailV1 dataTwoVars ["v2"] =
      ([⟨"v2_Mixed_ANOVA",
         SheetContent.anova [⟨"Condition", mkRat 1 10⟩, ⟨"Interaction", mkRat 1 50⟩]⟩],
        none) :=
  ⟨by decide, by decide⟩

/-- Claim C7 amended: a statistics-routine failure for one variable
propagates as an uncaught error that aborts the whole batch: the loop stops
at the failing variable (keeping only sheets written up to and including that
iteration) and no later dependent-variable column is processed. -/
theorem failure_propagates_stops_loop (o : Oracles) (data : Dataset) (dv_col : String)
    (rest : List String) (sheets : List Sheet) (data1 : Dataset) (e : String)
    (h : processVariable o data dv_col = (sheets, data1, some e)) :
    mainLoop o data (dv_col :: rest) = (sheets, some e) := by
  rw [mainLoop_cons, h]

/-- Concrete instance for the amended C7: the failing first variable stops
the loop regardless of how many columns follow. -/
theorem failure_propagates_stops_loop_witness :
    mainLoop oracleFailV1 dataTwoVars ["v1", "v2", "v3"] =
      ([], some "insufficient data") :=
  failure_propagates_stops_loop oracleFailV1 dataTwoVars "v1" ["v2", "v3"]
    [] dataTwoVars "insufficient data" rfl

/-- Claim C8: when every row of the input has its ID, Group and Condition
cells present (the spec's data model), the frame handed to the mixed-model
fit keeps exactly the observations whose value for the one requested
dependent variable is present: listwise deletion scoped to that call. -/
theorem listwise_deletion_scoped (data : Dataset) (dv_col : String)
    (hwf : ∀ r ∈ data, r.id.isSome ∧ r.group.isSome ∧ r.cond.isSome) (r : Row) :
    r ∈ aov_input data dv_col ↔ r ∈ data ∧ (r.getDv dv_col).isSome := by
  unfold aov_input
  rw [List.mem_filter]
  constructor
  · rintro ⟨hm, hb⟩
    simp only [Bool.and_eq_true] at hb
    exact ⟨hm, hb.2⟩
  · rintro ⟨hm, hdv⟩
    obtain ⟨i1, i2, i3⟩ := hwf r hm
    refine ⟨hm, ?_⟩
    simp [i1, i2, i3, hdv]

/-- Concrete instance for C8: with the dependent variable "v1", a row whose
"v1" is present is kept even though its other column "v2" is missing, and a
row missing "v1" is dropped even though its "v2" is present. -/
theorem listwise_deletion_scoped_witness :
    (⟨some "1", some "g", some "c", [("v1", some 1), ("v2", none)]⟩ : Row) ∈
      aov_input
        [⟨some "1", some "g", some "c", [("v1", some 1), ("v2", none)]⟩,
         ⟨some "2", some "g", some "c", [("v1", none), ("v2", some 2)]⟩] "v1" ∧
    (⟨some "2", some "g", some "c", [("v1", none), ("v2", some 2)]⟩ : Row) ∉
      aov_input
        [⟨some "1", some "g", some "c", [("v1", some 1), ("v2", none)]⟩,
         ⟨some "2", some "g", some "c", [("v1", none), ("v2", some 2)]⟩] "v1" := by
  constructor
  · exact (listwise_deletion_scoped
      [⟨some "1", some "g", some "c", [("v1", some 1), ("v2", none)]⟩,
       ⟨some "2", some "g", some "c", [("v1", none), ("v2", some 2)]⟩] "v1"
      (by decide) ⟨some "1", some "g", some "c", [("v1", some 1), ("v2", none)]⟩).mpr
      ⟨by decide, by decide⟩
  · intro hmem
    have hch := (listwise_deletion_scoped
      [⟨some "1", some "g", some "c", [("v1", some 1), ("v2", none)]⟩,
       ⟨some "2", some "g", some "c", [("v1", none), ("v2", some 2)]⟩] "v1"
      (by decide) ⟨some "2", some "g", some "c", [("v1", none), ("v2", some 2)]⟩).mp hmem
    exact absurd hch.2 (by decide)

/-- A dataset observing the (group, condition) pairs (g1, a), (g1, b) and
(g2, a) but never (g2, b); every present value is non-missing. -/
def dataThreeCells : Dataset :=
  [⟨some "1", some "g1", some "a", [("v", some 1)]⟩,
   ⟨some "1", some "g1", some "b", [("v", some 2)]⟩,
   ⟨some "2", some "g2", some "a", [("v", some 3)]⟩]

/-- Claim C9 counterexample: the pair (g2, b) has zero qualifying
observations, yet the means table is NOT missing that key — `unstack()`
produces the full seen-groups × seen-conditions rectangle, so the key is
present and holds the NaN placeholder (modelled `none`). -/
theorem means_unobserved_pair_present_nan :
    lookupKey ("g2", "b") (calculate_means dataThreeCells "v") = some none ∧
    qualifyingVals dataThreeCells "v" "g2" "b" = [] :=
  ⟨by decide, by decide⟩

/-- Claim C9 amended: the means table's keys are exactly the rectangle of
groups and conditions each seen in at least one fully-labelled observation;
a key holds the cell mean when the pair has at least one non-missing
dependent-variable observation and the NaN placeholder (`none`) otherwise.
Only a group or condition label that never occurs at all is absent. -/
theorem calculate_means_rectangle (data : Dataset) (dv_col g c : String) :
    lookupKey (g, c) (calculate_means data dv_col) =
      (if g ∈ seenGroups data ∧ c ∈ seenConds data
       then some (cellMean data dv_col g c) else none) ∧
    (cellMean data dv_col g c = none ↔ qualifyingVals data dv_col g c = []) := by
  constructor
  · have hkey := lookupKey_map_keyed ((seenGroups data).product (seenConds data))
      (fun gc => cellMean data dv_col gc.1 gc.2) (g, c)
    unfold calculate_means
    rw [hkey]
    by_cases hm : g ∈ seenGroups data ∧ c ∈ seenConds data
    · rw [if_pos (List.pair_mem_product.mpr hm), if_pos hm]
    · rw [if_neg (fun hcon => hm (List.pair_mem_product.mp hcon)), if_neg hm]
  · unfold cellMean
    by_cases hq : qualifyingVals data dv_col g c = []
    · rw [if_pos hq]
      exact ⟨fun _ => hq, fun _ => rfl⟩
    · rw [if_neg hq]
      exact ⟨fun hcon => absurd hcon (Option.some_ne_none _), fun hcon => absurd hcon hq⟩
